import Mathlib

/-!
Verification of the OpenAkita local service supervisor
(`src/apps/setup-center/src-tauri/src/main.rs`).

The supervisor is stateful: it manipulates per-workspace registry files
(`openakita-{ws}.pid`), lock marker files (`openakita-{ws}.lock`), an
in-process managed child handle (`MANAGED_CHILD`), and queries the OS for
process liveness and creation times.  We embed it shallowly:

* `World` models the cross-process shared mutable state (the run directory
  with its pid and lock files, plus the in-memory managed handle).
* `Env` is the OS / network oracle: liveness of a pid as a function of time
  (milliseconds; the code only observes liveness between `thread::sleep`
  calls, so time advances exactly at the sleeps), process creation times,
  the outcome of the cooperative HTTP shutdown request, the exit status of
  the `kill -TERM` command, and the pids matched by the orphan scan.
* Each Tauri command becomes a Lean function from `Env`, `World`, and the
  current time to its result, the successor world, the elapsed time, and
  (for `openakita_service_start`) a trace of the externally visible events.

Fallible registry parsing: the on-disk content of a pid file is abstracted
by `FileContent`, whose constructors record the outcome of the two parse
attempts made by the Rust code (`serde_json::from_str::<PidFileData>` and
`str::parse::<u32>` on the trimmed content): `jsonRecord` is a well-formed
structured JSON record (with `Option` fields for the serde defaults),
`bareInt` is content that is a bare `u32` literal, and `garbage` is content
rejected by both parsers.
-/

namespace OpenAkita

/-- `PidFileData` (main.rs lines 107-114): the structured registry record.
`started_by` is `"tauri"` or `"external"`; `started_at` is unix epoch
seconds, `0` for legacy records. -/
structure PidFileData where
  pid : Nat
  started_by : String
  started_at : Nat
deriving Repr, DecidableEq

/-- `default_started_by` (main.rs lines 116-118): serde default for the
`started_by` field. -/
def default_started_by : String := "tauri"

/-- Abstraction of the on-disk content of a registry pid file, classified by
the outcome of the two parsers the Rust code tries in order.
`jsonRecord pid sb sa` stands for a JSON document deserializing to
`PidFileData` with the given fields (`none` = field absent, serde default
applies); such a document never also parses as a bare `u32`.  `bareInt n`
stands for content whose trimmed text parses as the `u32` value `n` (and is
therefore not a JSON object, so the serde attempt fails).  `garbage` is
content rejected by both parsers. -/
inductive FileContent where
  | jsonRecord (pid : Nat) (startedBy : Option String) (startedAt : Option Nat)
  | bareInt (n : Nat)
  | garbage
deriving Repr, DecidableEq

/-- `read_pid_file` (main.rs lines 140-161), parameterized by the file
content (`none` = file missing or unreadable).  First tries the JSON shape
and accepts it when `pid > 0`; otherwise falls back to the legacy bare-u32
shape, accepted when positive, with `started_by = "tauri"` and
`started_at = 0`; anything else yields no record. -/
def read_pid_file : Option FileContent → Option PidFileData
  | none => none
  | some (FileContent.jsonRecord pid sb sa) =>
      if pid > 0 then some ⟨pid, sb.getD default_started_by, sa.getD 0⟩ else none
  | some (FileContent.bareInt n) =>
      if n > 0 then some ⟨n, "tauri", 0⟩ else none
  | some FileContent.garbage => none

/-- OS / network oracle for the supervisor.  `alive pid t` is the liveness
of `pid` at time `t` (milliseconds; the code samples it between sleeps).
`createTime pid` is the OS-reported creation time of `pid` in epoch
seconds (`none` when unavailable).  `apiOk` is whether the cooperative
`POST /api/shutdown` request returned a 2xx response.  `killOk pid` is
whether the `kill -TERM pid` command exited successfully.  `orphanPids` is
the list of pids matched by the `ps aux | grep openakita.main.*serve`
orphan scan.  The remaining fields feed `openakita_service_start`:
sub-step success flags, the spawned pid (`none` = spawn failed), the epoch
time stamped into the registry record, and the bytes of the log file read
for the immediate-exit diagnostic. -/
structure Env where
  alive : Nat → Nat → Bool
  createTime : Nat → Option Nat
  apiOk : Bool
  killOk : Nat → Bool
  orphanPids : List Nat
  scaffoldOk : Bool
  venvOk : Bool
  logDirOk : Bool
  logOpenOk : Bool
  spawnPid : Option Nat
  nowEpoch : Nat
  logBytes : List Nat

/-- `is_pid_running` (main.rs lines 422-446): pid 0 is never running;
otherwise the OS liveness check (`kill -0` on unix). -/
def is_pid_running (env : Env) (t pid : Nat) : Bool :=
  if pid = 0 then false else env.alive pid t

/-- `is_pid_file_valid` (main.rs lines 346-365): identity validation of a
registry record.  Not alive ⇒ false; legacy (`started_at = 0`) ⇒ true;
otherwise compare against the OS creation time with a 5 second tolerance,
falling back to liveness alone when the creation time is unavailable. -/
def is_pid_file_valid (env : Env) (t : Nat) (data : PidFileData) : Bool :=
  if ¬ is_pid_running env t data.pid then false
  else if data.started_at = 0 then true
  else
    match env.createTime data.pid with
    | some actual =>
        (if data.started_at > actual then data.started_at - actual
         else actual - data.started_at) ≤ 5
    | none => true

/-- Claim C2 test example: legacy record of a live pid is valid. -/
example :
    is_pid_file_valid
      { alive := fun _ _ => true, createTime := fun _ => none, apiOk := false,
        killOk := fun _ => true, orphanPids := [], scaffoldOk := true,
        venvOk := true, logDirOk := true, logOpenOk := true, spawnPid := none,
        nowEpoch := 0, logBytes := [] }
      0 ⟨7, "tauri", 0⟩ = true := rfl

/-- `ManagedProcess` (main.rs lines 21-26): in-process handle to a child
this supervisor instance spawned itself (the `child : std::process::Child`
native handle is represented by its pid, which is how the model answers
`try_wait`). -/
structure Managed where
  workspace_id : String
  pid : Nat
  started_at : Nat
deriving Repr, DecidableEq

/-- The cross-process shared mutable state: the run directory (whether it
exists, which lock marker files are present, and the pid files with their
contents, keyed by workspace id) together with the in-memory
`MANAGED_CHILD` slot. -/
structure World where
  runDirExists : Bool
  locks : List String
  pidFiles : List (String × FileContent)
  managed : Option Managed
deriving Repr, DecidableEq

/-- Content of the registry pid file for a workspace (`none` = absent):
the filesystem read behind `read_pid_file`. -/
def lookupFile (files : List (String × FileContent)) (ws : String) : Option FileContent :=
  (files.find? (fun p => p.1 == ws)).map (fun p => p.2)

/-- `fs::remove_file(service_pid_file ws)`: drop the entry for `ws`. -/
def eraseFile (files : List (String × FileContent)) (ws : String) :
    List (String × FileContent) :=
  files.filter (fun p => p.1 != ws)

/-- `fs::write(service_pid_file ws, …)`: whole-file replacement. -/
def setFile (files : List (String × FileContent)) (ws : String) (c : FileContent) :
    List (String × FileContent) :=
  (ws, c) :: eraseFile files ws

/-- `release_start_lock` (main.rs lines 280-282): unconditionally remove
the lock marker for `ws`. -/
def release_start_lock (locks : List String) (ws : String) : List String :=
  locks.filter (fun l => l != ws)

/-- `write_pid_file` (main.rs lines 127-137): serialize a structured record
with the current epoch time and replace the file. -/
def write_pid_file (files : List (String × FileContent)) (ws : String)
    (pid : Nat) (startedBy : String) (nowEpoch : Nat) :
    List (String × FileContent) :=
  setFile files ws (FileContent.jsonRecord pid (some startedBy) (some nowEpoch))

/-- Structured stop failure (the Rust code reports these as strings):
`killFailed` is the propagated error of the `kill -TERM` command
(main.rs lines 477-487), `stillRunning` is
"pid … still running after graceful + forced stop" (main.rs line 249). -/
inductive StopErr where
  | killFailed (pid : Nat)
  | stillRunning (pid : Nat)
deriving Repr, DecidableEq

/-- One of the liveness polling loops of `graceful_stop_pid`: up to `n`
iterations, each checking liveness then sleeping 200 ms (main.rs lines
228-233 and 240-245).  Returns the time after the loop and whether the
process was found dead (in which case the loop exited at that time without
a further sleep). -/
def pollDead (env : Env) (pid : Nat) : Nat → Nat → Nat × Bool
  | t, 0 => (t, false)
  | t, Nat.succ n =>
      if is_pid_running env t pid then pollDead env pid (t + 200) n
      else (t, true)

/-- `graceful_stop_pid` (main.rs lines 206-253): no-op if already dead;
otherwise try the cooperative `POST /api/shutdown` (3 s client timeout)
and, if it was acknowledged, poll liveness for up to 25 × 200 ms; then, if
still alive, send `kill -TERM` (propagating its failure) and poll for up to
10 × 200 ms; finally report `stillRunning` if the process is still alive.
Returns the result together with the time at which the call returns. -/
def graceful_stop_pid (env : Env) (pid t0 : Nat) : Except StopErr Unit × Nat :=
  if ¬ is_pid_running env t0 pid then (Except.ok (), t0)
  else
    let g := if env.apiOk then pollDead env pid t0 25 else (t0, false)
    if g.2 then (Except.ok (), g.1)
    else
      let t1 := g.1
      if is_pid_running env t1 pid then
        if ¬ env.killOk pid then (Except.error (StopErr.killFailed pid), t1)
        else
          let wl := pollDead env pid t1 10
          if is_pid_running env wl.1 pid then
            (Except.error (StopErr.stillRunning pid), wl.1)
          else (Except.ok (), wl.1)
      else
        if is_pid_running env t1 pid then
          (Except.error (StopErr.stillRunning pid), t1)
        else (Except.ok (), t1)

/-- Result type of the status/start/stop commands (main.rs lines 986-992);
the `pid_file` path field is omitted (it is a constant function of the
workspace id). -/
structure ServiceStatus where
  running : Bool
  pid : Option Nat
deriving Repr, DecidableEq

/-- The registry-record path of `openakita_service_stop` (main.rs lines
1282-1293): read the record; if present, run the full graceful-then-forced
stop, propagating its error (in which case the pid file is NOT removed);
on success or when there is no record, remove the pid file (best-effort)
and report not running. -/
def stopViaFile (env : Env) (w : World) (ws : String) (t0 : Nat) :
    Except StopErr ServiceStatus × World × Nat :=
  match read_pid_file (lookupFile w.pidFiles ws) with
  | some data =>
      let g := graceful_stop_pid env data.pid t0
      match g.1 with
      | Except.error e => (Except.error e, w, g.2)
      | Except.ok _ =>
          (Except.ok ⟨false, none⟩,
           { w with pidFiles := eraseFile w.pidFiles ws }, g.2)
  | none =>
      (Except.ok ⟨false, none⟩,
       { w with pidFiles := eraseFile w.pidFiles ws }, t0)

/-- `openakita_service_stop` (main.rs lines 1256-1294).  If the managed
handle belongs to this workspace it is taken out, the graceful stop is
attempted with its result ignored, the child handle is force-killed and
awaited if still alive (`child.kill(); child.wait()` — SIGKILL on the
owned handle, which always reaps it), the pid file is removed, and the
call reports not running.  Otherwise the registry-record path runs. -/
def openakita_service_stop (env : Env) (w : World) (ws : String) (t0 : Nat) :
    Except StopErr ServiceStatus × World × Nat :=
  match w.managed with
  | some mp =>
      if mp.workspace_id == ws then
        let g := graceful_stop_pid env mp.pid t0
        (Except.ok ⟨false, none⟩,
         { w with managed := none, pidFiles := eraseFile w.pidFiles ws }, g.2)
      else stopViaFile env w ws t0
  | none => stopViaFile env w ws t0

/-- Structured start failures of `openakita_service_start` (the Rust code
reports these as strings).  `startRace` is "另一个启动操作正在进行中" (another
start operation is in progress, main.rs line 1149); `immediateExit`
carries the spawned pid and the bounded log tail (main.rs lines
1241-1245). -/
inductive StartErr where
  | createRunDirFailed
  | scaffoldFailed
  | venvPythonMissing
  | logDirFailed
  | logOpenFailed
  | spawnFailed
  | startRace
  | immediateExit (pid : Nat) (tail : List Nat)
deriving Repr, DecidableEq

/-- Externally visible events of one `openakita_service_start` call, in
program order, used to state ordering properties (stale-record removal
happens before the lock is acquired; a spawn happens only between acquire
and release). -/
inductive Ev where
  | removedStale
  | lockAcq
  | spawned (pid : Nat)
  | lockRel
deriving Repr, DecidableEq

/-- `try_acquire_start_lock` (main.rs lines 269-278): atomic
exclusive-create (`OpenOptions::create_new`) of the lock marker — succeeds
exactly when the marker is absent. -/
def try_acquire_start_lock (locks : List String) (ws : String) : Bool × List String :=
  if locks.contains ws then (false, locks) else (true, ws :: locks)

/-- The log-tail bound of the immediate-exit diagnostic (main.rs lines
1231-1240): the last 6000 bytes of the log when it is larger than 6000
bytes, the whole log otherwise. -/
def logTail (s : List Nat) : List Nat :=
  if s.length > 6000 then s.drop (s.length - 6000) else s

/-- Step 1 of `openakita_service_start` (main.rs lines 1117-1134): consult
`MANAGED_CHILD`.  A live managed child for this workspace short-circuits
to `running`; a dead one is cleared from the slot and the call goes on. -/
def startCheckManaged (env : Env) (w : World) (ws : String) (t0 : Nat) :
    Option ServiceStatus × World :=
  match w.managed with
  | some mp =>
      if mp.workspace_id == ws then
        if is_pid_running env t0 mp.pid then (some ⟨true, some mp.pid⟩, w)
        else (none, { w with managed := none })
      else (none, w)
  | none => (none, w)

/-- Registry consultation of `openakita_service_start` (main.rs lines
1135-1145): an identity-valid record short-circuits to `running`; a stale
record is removed from the registry and the call goes on. -/
def startCheckRegistry (env : Env) (w : World) (ws : String) (t0 : Nat) :
    Option ServiceStatus × World × List Ev :=
  match read_pid_file (lookupFile w.pidFiles ws) with
  | some data =>
      if is_pid_file_valid env t0 data then (some ⟨true, some data.pid⟩, w, [])
      else
        (none, { w with pidFiles := eraseFile w.pidFiles ws }, [Ev.removedStale])
  | none => (none, w, [])

/-- `openakita_service_start` (main.rs lines 1112-1253).  Sequence: create
the run directory; consult the managed handle, then the registry (removing
a stale record); acquire the start lock, failing fast with `startRace`;
then — with the lock released on every subsequent return path, by the
`LockGuard` drop (main.rs lines 1151-1155) — scaffold the workspace, check
the venv python, open the log, spawn, write the registry record, store the
managed handle, sleep 500 ms, and re-check liveness, failing with
`immediateExit` (clearing the handle and the record, attaching the log
tail) if the process died inside the grace window.  Returns the result,
the successor world, the return time, and the event trace. -/
def openakita_service_start (env : Env) (w0 : World) (ws : String) (t0 : Nat) :
    Except StartErr ServiceStatus × World × Nat × List Ev :=
  let w1 : World := { w0 with runDirExists := true }
  match startCheckManaged env w1 ws t0 with
  | (some st, w2) => (Except.ok st, w2, t0, [])
  | (none, w2) =>
    match startCheckRegistry env w2 ws t0 with
    | (some st, w3, evs) => (Except.ok st, w3, t0, evs)
    | (none, w3, evs) =>
      let acq := try_acquire_start_lock w3.locks ws
      if ¬ acq.1 then (Except.error StartErr.startRace, w3, t0, evs)
      else
        let w4 : World := { w3 with locks := acq.2 }
        let evs1 := evs ++ [Ev.lockAcq]
        let rel : World → World := fun w =>
          { w with locks := release_start_lock w.locks ws }
        if ¬ env.scaffoldOk then
          (Except.error StartErr.scaffoldFailed, rel w4, t0, evs1 ++ [Ev.lockRel])
        else if ¬ env.venvOk then
          (Except.error StartErr.venvPythonMissing, rel w4, t0, evs1 ++ [Ev.lockRel])
        else if ¬ env.logDirOk then
          (Except.error StartErr.logDirFailed, rel w4, t0, evs1 ++ [Ev.lockRel])
        else if ¬ env.logOpenOk then
          (Except.error StartErr.logOpenFailed, rel w4, t0, evs1 ++ [Ev.lockRel])
        else
          match env.spawnPid with
          | none =>
              (Except.error StartErr.spawnFailed, rel w4, t0, evs1 ++ [Ev.lockRel])
          | some pid =>
            let evs2 := evs1 ++ [Ev.spawned pid]
            let w5 : World :=
              { w4 with pidFiles := write_pid_file w4.pidFiles ws pid "tauri" env.nowEpoch }
            let w6 : World :=
              { w5 with managed := some ⟨ws, pid, env.nowEpoch⟩ }
            let t1 := t0 + 500
            if ¬ is_pid_running env t1 pid then
              let w7 : World :=
                { w6 with
                  managed :=
                    match w6.managed with
                    | some mp => if mp.pid == pid then none else some mp
                    | none => none }
              let w8 : World := { w7 with pidFiles := eraseFile w7.pidFiles ws }
              (Except.error (StartErr.immediateExit pid (logTail env.logBytes)),
               rel w8, t1, evs2 ++ [Ev.lockRel])
            else
              (Except.ok ⟨true, some pid⟩, rel w6, t1, evs2 ++ [Ev.lockRel])

/-- `openakita_service_status` (main.rs lines 1002-1052): the managed
handle answers first (clearing itself and the pid file when the child has
exited); otherwise an identity-valid registry record reports running and a
stale one is removed. -/
def openakita_service_status (env : Env) (w : World) (ws : String) (t : Nat) :
    ServiceStatus × World :=
  match w.managed with
  | some mp =>
      if mp.workspace_id == ws then
        if is_pid_running env t mp.pid then (⟨true, some mp.pid⟩, w)
        else
          (⟨false, none⟩,
           { w with managed := none, pidFiles := eraseFile w.pidFiles ws })
      else statusViaFile env w ws t
  | none => statusViaFile env w ws t
where
  statusViaFile (env : Env) (w : World) (ws : String) (t : Nat) :
      ServiceStatus × World :=
    match read_pid_file (lookupFile w.pidFiles ws) with
    | some data =>
        if is_pid_file_valid env t data then (⟨true, some data.pid⟩, w)
        else (⟨false, none⟩, { w with pidFiles := eraseFile w.pidFiles ws })
    | none => (⟨false, none⟩, w)

/-- `ServicePidEntry` (main.rs lines 163-171), minus the redundant
`pid_file` path field. -/
structure ServicePidEntry where
  workspace_id : String
  pid : Nat
  started_by : String
deriving Repr, DecidableEq

/-- `list_service_pids` (main.rs lines 173-201): scan the run directory for
`openakita-*.pid` files and keep those that parse to a record. -/
def list_service_pids (w : World) : List ServicePidEntry :=
  if ¬ w.runDirExists then []
  else
    w.pidFiles.filterMap (fun p =>
      match read_pid_file (some p.2) with
      | some data => some ⟨p.1, data.pid, data.started_by⟩
      | none => none)

/-- `stop_service_pid_entry` (main.rs lines 255-261): graceful-then-forced
stop when alive, propagating its error (leaving the pid file in place);
then best-effort removal of the pid file. -/
def stop_service_pid_entry (env : Env) (w : World) (e : ServicePidEntry) (t : Nat) :
    Except StopErr Unit × World × Nat :=
  if is_pid_running env t e.pid then
    let g := graceful_stop_pid env e.pid t
    match g.1 with
    | Except.error er => (Except.error er, w, g.2)
    | Except.ok _ =>
        (Except.ok (),
         { w with pidFiles := eraseFile w.pidFiles e.workspace_id }, g.2)
  else
    (Except.ok (),
     { w with pidFiles := eraseFile w.pidFiles e.workspace_id }, t)

/-- `startup_reconcile` (main.rs lines 850-878): nothing if the run
directory does not exist; otherwise remove every `.lock` marker, then
remove every pid file whose parsed record fails identity validation
(entries that do not parse are left alone, as `list_service_pids` skips
them). -/
def startup_reconcile (env : Env) (w : World) (t : Nat) : World :=
  if ¬ w.runDirExists then w
  else
    { w with
      locks := [],
      pidFiles := w.pidFiles.filter (fun p =>
        match read_pid_file (some p.2) with
        | some data => is_pid_file_valid env t data
        | none => true) }

/-- `kill_openakita_orphans` (main.rs lines 493-576): enumerate the
processes whose command line matches the `openakita.main … serve`
signature (given by the oracle), send `kill -TERM` to each one still
alive, and return the killed pids.  The registry is never consulted. -/
def kill_openakita_orphans (env : Env) (t : Nat) : List Nat :=
  env.orphanPids.filter (fun pid => is_pid_running env t pid)

/-- Layer 1 of `openakita_stop_all_processes` (main.rs lines 684-692):
iterate the registry entries (computed up front); for each one whose pid is
alive, run `stop_service_pid_entry` (errors ignored) and record the pid as
stopped.  No `started_by` filter is applied here. -/
def stopAllLoop (env : Env) :
    List ServicePidEntry → World → Nat → List Nat → World × Nat × List Nat
  | [], w, t, acc => (w, t, acc)
  | e :: rest, w, t, acc =>
      if is_pid_running env t e.pid then
        let r := stop_service_pid_entry env w e t
        stopAllLoop env rest r.2.1 r.2.2 (acc ++ [e.pid])
      else stopAllLoop env rest w t acc

/-- Layer 2 merge of `openakita_stop_all_processes` (main.rs lines
694-700): append each orphan-scan pid not already recorded. -/
def mergeOrphans : List Nat → List Nat → List Nat
  | s, [] => s
  | s, p :: rest => mergeOrphans (if s.contains p then s else s ++ [p]) rest

/-- `openakita_stop_all_processes` (main.rs lines 680-703): stop every
registry entry whose pid is alive (layer 1, no `started_by` exclusion),
then kill every orphan-scan match (layer 2), returning the combined pid
list. -/
def openakita_stop_all_processes (env : Env) (w : World) (t : Nat) :
    List Nat × World × Nat :=
  let l := stopAllLoop env (list_service_pids w) w t []
  let orphans := kill_openakita_orphans env l.2.1
  (mergeOrphans l.2.2 orphans, l.1, l.2.1)

/-- Step 2 of the tray quit sequence (main.rs lines 1447-1456): iterate the
registry entries, SKIPPING those with `started_by == "external"`, and run
`stop_service_pid_entry` on the rest (errors ignored).  Returns the world,
the time, and the pids to which a stop was issued. -/
def trayQuitStep2 (env : Env) :
    List ServicePidEntry → World → Nat → World × Nat × List Nat
  | [], w, t => (w, t, [])
  | e :: rest, w, t =>
      if e.started_by == "external" then trayQuitStep2 env rest w t
      else
        let r := stop_service_pid_entry env w e t
        let k := trayQuitStep2 env rest r.2.1 r.2.2
        (k.1, k.2.1, e.pid :: k.2.2)

/-- Outcome of the tray "quit" menu handler: successor world, final time,
the managed pid stopped in step 1 (if any), the registry pids targeted in
step 2, the pids killed by the orphan scans of steps 3 and 4, and whether
the app exits (step 4's confirmation found nothing left). -/
structure QuitOutcome where
  world : World
  time : Nat
  managedTargeted : Option Nat
  registryTargeted : List Nat
  orphansKilled : List Nat
  confirmKilled : List Nat
  exitApp : Bool
deriving Repr, DecidableEq

/-- The tray "quit" menu handler (main.rs lines 1430-1493): stop the
managed child (graceful, then `child.kill()`/`wait()` if needed, then
remove its pid file); stop every non-external registry entry; kill
orphan-scan matches; sleep 600 ms; re-list non-external live registry
entries and re-run the orphan scan; exit only if both are empty. -/
def tray_quit (env : Env) (w : World) (t0 : Nat) : QuitOutcome :=
  let s1 : World × Nat × Option Nat :=
    match w.managed with
    | some mp =>
        let g := graceful_stop_pid env mp.pid t0
        ({ w with managed := none,
                  pidFiles := eraseFile w.pidFiles mp.workspace_id },
         g.2, some mp.pid)
    | none => (w, t0, none)
  let s2 := trayQuitStep2 env (list_service_pids s1.1) s1.1 s1.2.1
  let killed1 := kill_openakita_orphans env s2.2.1
  let t4 := s2.2.1 + 600
  let stillPid := (list_service_pids s2.1).filter
    (fun x => x.started_by != "external" && is_pid_running env t4 x.pid)
  let killed2 := kill_openakita_orphans env t4
  { world := s2.1, time := t4, managedTargeted := s1.2.2,
    registryTargeted := s2.2.2, orphansKilled := killed1,
    confirmKilled := killed2,
    exitApp := stillPid.isEmpty && killed2.isEmpty }

namespace Race

/-!
Two concurrent `openakita_service_start` calls for the SAME workspace id,
embedded as a two-thread interleaving machine.  Each instruction is one
atomic observation or mutation of the shared state, following the program
order of main.rs lines 1112-1253:

* `checkManaged`  — the `MANAGED_CHILD` mutex block (lines 1118-1134);
  one atomic step because the mutex is held throughout.
* `checkPid` / `removeStale` — `read_pid_file` + `is_pid_file_valid`, and
  the removal of a stale record (lines 1135-1145).  Records written by
  this machine carry a fresh `started_at` matching the child's creation
  time, so identity validation reduces to liveness here.
* `acquire`       — `try_acquire_start_lock`, the atomic exclusive-create
  (lines 1147-1150); fails with `race` exactly when the lock is held.
* `doSpawn`       — `cmd.spawn()` (line 1203): creates a fresh live pid.
* `writePid`      — `write_pid_file` (line 1208).
* `storeManaged`  — storing the `ManagedProcess` (lines 1211-1219).
* `grace`         — the 500 ms grace re-check and the return, including
  the `LockGuard` release-on-return (lines 1221-1252).

Spawned processes stay alive (the environment resolves the grace check in
favour of the spawned child), and both threads run against a workspace
that initially has no lock, no record, and no managed child.
-/

/-- Result of one Start thread. -/
inductive Outcome where
  | running (pid : Nat)
  | race
  | spawnedOk (pid : Nat)
  | exited (pid : Nat)
deriving Repr, DecidableEq

/-- Program counter of one Start thread. -/
inductive PC where
  | checkManaged
  | checkPid
  | removeStale
  | acquire
  | doSpawn
  | writePid
  | storeManaged
  | grace
  | halted (o : Outcome)
deriving Repr, DecidableEq

/-- Shared state (lock marker, pid file, managed slot, live pid set, pid
allocator, spawn log) plus each thread's program counter and spawned-pid
local. -/
structure MState where
  lock : Bool
  pidFile : Option Nat
  managed : Option Nat
  aliveSet : List Nat
  nextPid : Nat
  spawns : List (Bool × Nat)
  pcA : PC
  pcB : PC
  localA : Nat
  localB : Nat
deriving Repr, DecidableEq

/-- Execute one instruction of the thread tagged `isA`, whose program
counter is `pc` and local spawned pid is `lcl`; returns the updated shared
state (thread registers untouched) with the new pc and local. -/
def exec (s : MState) (isA : Bool) (pc : PC) (lcl : Nat) : MState × PC × Nat :=
  match pc with
  | PC.checkManaged =>
      match s.managed with
      | some p =>
          if s.aliveSet.contains p then (s, PC.halted (Outcome.running p), lcl)
          else ({ s with managed := none }, PC.checkPid, lcl)
      | none => (s, PC.checkPid, lcl)
  | PC.checkPid =>
      match s.pidFile with
      | some p =>
          if s.aliveSet.contains p then (s, PC.halted (Outcome.running p), lcl)
          else (s, PC.removeStale, lcl)
      | none => (s, PC.acquire, lcl)
  | PC.removeStale => ({ s with pidFile := none }, PC.acquire, lcl)
  | PC.acquire =>
      if s.lock then (s, PC.halted Outcome.race, lcl)
      else ({ s with lock := true }, PC.doSpawn, lcl)
  | PC.doSpawn =>
      let p := s.nextPid
      ({ s with aliveSet := p :: s.aliveSet, nextPid := s.nextPid + 1,
                spawns := s.spawns ++ [(isA, p)] },
       PC.writePid, p)
  | PC.writePid => ({ s with pidFile := some lcl }, PC.storeManaged, lcl)
  | PC.storeManaged => ({ s with managed := some lcl }, PC.grace, lcl)
  | PC.grace =>
      if s.aliveSet.contains lcl then
        ({ s with lock := false }, PC.halted (Outcome.spawnedOk lcl), lcl)
      else
        ({ s with
            lock := false,
            pidFile := none,
            managed :=
              match s.managed with
              | some p => if p == lcl then none else some p
              | none => none },
         PC.halted (Outcome.exited lcl), lcl)
  | PC.halted o => (s, PC.halted o, lcl)

/-- Run one scheduler step: thread A when the flag is `true`, B otherwise. -/
def step (s : MState) (isA : Bool) : MState :=
  if isA then
    let r := exec s true s.pcA s.localA
    { r.1 with pcA := r.2.1, localA := r.2.2 }
  else
    let r := exec s false s.pcB s.localB
    { r.1 with pcB := r.2.1, localB := r.2.2 }

/-- Run the machine under a schedule (list of thread choices). -/
def run (s : MState) (sched : List Bool) : MState :=
  sched.foldl step s

/-- Initial state: no lock, no registry record, no managed child, no live
process; both Start calls at their first instruction. -/
def init : MState :=
  { lock := false, pidFile := none, managed := none, aliveSet := [],
    nextPid := 1, spawns := [], pcA := PC.checkManaged, pcB := PC.checkManaged,
    localA := 0, localB := 0 }

/-- The losing schedule: B performs its managed-handle and registry checks
(finding nothing), is then preempted for the whole of A's call (A spawns
pid 1, registers it, passes the grace window, and releases the lock on
return), and B then resumes, acquires the now-free lock and spawns pid 2. -/
def bugSchedule : List Bool :=
  [false, false] ++ List.replicate 7 true ++ List.replicate 5 false

end Race

/-! ### Shared helper lemmas -/

theorem lookupFile_eraseFile (files : List (String × FileContent)) (ws : String) :
    lookupFile (eraseFile files ws) ws = none := by
  have h : (eraseFile files ws).find? (fun p => p.1 == ws) = none := by
    rw [List.find?_eq_none]
    intro x hx
    have hf := List.of_mem_filter hx
    simp only [bne_iff_ne, ne_eq, decide_eq_true_eq] at hf
    simp [hf]
  simp [lookupFile, h]

theorem contains_release_start_lock (l : List String) (ws : String) :
    (release_start_lock l ws).contains ws = false := by
  rw [Bool.eq_false_iff]
  intro h
  have hmem : ws ∈ l.filter (fun x => x != ws) := by
    simpa [release_start_lock, List.contains] using List.elem_iff.mp h
  have := List.of_mem_filter hmem
  simp at this

theorem startCheckManaged_locks (env : Env) (w : World) (ws : String) (t : Nat) :
    ((startCheckManaged env w ws t).2).locks = w.locks := by
  unfold startCheckManaged
  cases w.managed with
  | none => rfl
  | some mp =>
      dsimp only
      split
      · split <;> rfl
      · rfl

theorem startCheckManaged_pidFiles (env : Env) (w : World) (ws : String) (t : Nat) :
    ((startCheckManaged env w ws t).2).pidFiles = w.pidFiles := by
  unfold startCheckManaged
  cases w.managed with
  | none => rfl
  | some mp =>
      dsimp only
      split
      · split <;> rfl
      · rfl

theorem startCheckRegistry_locks (env : Env) (w : World) (ws : String) (t : Nat) :
    ((startCheckRegistry env w ws t).2.1).locks = w.locks := by
  unfold startCheckRegistry
  split
  · split <;> rfl
  · rfl

theorem startCheckRegistry_pidFiles (env : Env) (w : World) (ws : String) (t : Nat) :
    ((startCheckRegistry env w ws t).2.1).pidFiles = w.pidFiles ∨
      ((startCheckRegistry env w ws t).2.1).pidFiles = eraseFile w.pidFiles ws := by
  unfold startCheckRegistry
  split
  · split
    · left; rfl
    · right; rfl
  · left; rfl

theorem pollDead_found_dead (env : Env) (pid : Nat) :
    ∀ fuel t, (pollDead env pid t fuel).2 = true →
      is_pid_running env (pollDead env pid t fuel).1 pid = false := by
  intro fuel
  induction fuel with
  | zero => intro t h; simp [pollDead] at h
  | succ n ih =>
      intro t h
      by_cases hr : is_pid_running env t pid
      · rw [pollDead] at h ⊢
        simp only [hr, if_true] at h ⊢
        exact ih (t + 200) h
      · rw [pollDead]
        simp only [hr]
        simpa using hr

/-- `graceful_stop_pid` fails exactly when the target process is observed
still alive at the time the call returns. -/
theorem graceful_stop_fails_iff_alive (env : Env) (pid t0 : Nat) :
    (∃ e, (graceful_stop_pid env pid t0).1 = Except.error e) ↔
      is_pid_running env (graceful_stop_pid env pid t0).2 pid = true := by
  cases h0 : is_pid_running env t0 pid with
  | false => simp [graceful_stop_pid, h0]
  | true =>
    cases hapi : env.apiOk with
    | true =>
      cases hg : (pollDead env pid t0 25).2 with
      | true =>
          have hdead := pollDead_found_dead env pid 25 t0 hg
          simp [graceful_stop_pid, h0, hapi, hg, hdead]
      | false =>
          cases h1 : is_pid_running env (pollDead env pid t0 25).1 pid with
          | false => simp [graceful_stop_pid, h0, hapi, hg, h1]
          | true =>
              cases hk : env.killOk pid with
              | false => simp [graceful_stop_pid, h0, hapi, hg, h1, hk]
              | true =>
                  cases h2 : is_pid_running env
                      (pollDead env pid (pollDead env pid t0 25).1 10).1 pid with
                  | false => simp [graceful_stop_pid, h0, hapi, hg, h1, hk, h2]
                  | true => simp [graceful_stop_pid, h0, hapi, hg, h1, hk, h2]
    | false =>
      cases hk : env.killOk pid with
      | false => simp [graceful_stop_pid, h0, hapi, hk]
      | true =>
          cases h2 : is_pid_running env (pollDead env pid t0 10).1 pid with
          | false => simp [graceful_stop_pid, h0, hapi, hk, h2]
          | true => simp [graceful_stop_pid, h0, hapi, hk, h2]

theorem logTail_length_le (s : List Nat) : (logTail s).length ≤ 6000 := by
  unfold logTail
  split
  · simp only [List.length_drop]
    omega
  · omega

theorem startCheckManaged_some (env : Env) (w : World) (ws : String) (t : Nat)
    (st : ServiceStatus) (w2 : World)
    (h : startCheckManaged env w ws t = (some st, w2)) :
    ∃ p, st = ⟨true, some p⟩ := by
  unfold startCheckManaged at h
  cases hm : w.managed with
  | none =>
      rw [hm] at h
      simp at h
  | some mp =>
      rw [hm] at h
      dsimp only at h
      by_cases hws : (mp.workspace_id == ws) = true
      · rw [if_pos hws] at h
        by_cases hr : is_pid_running env t mp.pid = true
        · rw [if_pos hr] at h
          injection h with h1 h2
          exact ⟨mp.pid, (Option.some.inj h1).symm⟩
        · rw [if_neg hr] at h
          simp at h
      · rw [if_neg hws] at h
        simp at h

theorem startCheckRegistry_some (env : Env) (w : World) (ws : String) (t : Nat)
    (st : ServiceStatus) (w2 : World) (evs : List Ev)
    (h : startCheckRegistry env w ws t = (some st, w2, evs)) :
    ∃ p, st = ⟨true, some p⟩ := by
  unfold startCheckRegistry at h
  cases hd : read_pid_file (lookupFile w.pidFiles ws) with
  | none =>
      rw [hd] at h
      simp at h
  | some d =>
      rw [hd] at h
      dsimp only at h
      by_cases hv : is_pid_file_valid env t d = true
      · rw [if_pos hv] at h
        injection h with h1 h2
        exact ⟨d.pid, (Option.some.inj h1).symm⟩
      · rw [if_neg hv] at h
        simp at h

theorem startCheckRegistry_evs (env : Env) (w : World) (ws : String) (t : Nat) :
    (startCheckRegistry env w ws t).2.2 = [] ∨
      (startCheckRegistry env w ws t).2.2 = [Ev.removedStale] := by
  unfold startCheckRegistry
  split
  · split
    · left; rfl
    · right; rfl
  · left; rfl

/-! ### Concrete test environments and worlds (shared by witnesses and
counterexamples) -/

/-- Environment in which every process is dead and every optional
capability is unavailable. -/
def envDead : Env :=
  { alive := fun _ _ => false, createTime := fun _ => none, apiOk := false,
    killOk := fun _ => false, orphanPids := [], scaffoldOk := true,
    venvOk := true, logDirOk := true, logOpenOk := true, spawnPid := none,
    nowEpoch := 0, logBytes := [] }

/-- Environment in which every process is alive forever, with creation
time 1 for every pid. -/
def envLive : Env :=
  { alive := fun _ _ => true, createTime := fun _ => some 1, apiOk := false,
    killOk := fun _ => true, orphanPids := [], scaffoldOk := true,
    venvOk := true, logDirOk := true, logOpenOk := true, spawnPid := none,
    nowEpoch := 0, logBytes := [] }

/-! ### Claims -/

/-- C2 (confirmed): identity validation `is_pid_file_valid` returns false
when the recorded pid is not alive; returns true when the record is legacy
(`started_at = 0`); otherwise, when the OS creation time of the pid is
available, returns true exactly when `|started_at − creation_time| ≤ 5`
seconds; and when the creation time is unavailable it returns true,
falling back to liveness alone. -/
theorem C2_identity_validation (env : Env) (t : Nat) (d : PidFileData) :
    is_pid_file_valid env t d = true ↔
      (is_pid_running env t d.pid = true ∧
        (d.started_at = 0 ∨
          ∀ c, env.createTime d.pid = some c →
            ((d.started_at : Int) - c ≤ 5 ∧ (c : Int) - d.started_at ≤ 5))) := by
  unfold is_pid_file_valid
  cases hrun : is_pid_running env t d.pid with
  | false => simp [hrun]
  | true =>
      by_cases h0 : d.started_at = 0
      · simp [hrun, h0]
      · cases hc : env.createTime d.pid with
        | none => simp [hrun, h0, hc]
        | some c =>
            simp only [hrun, h0, hc, Bool.not_eq_true, if_false, ite_false,
              Bool.true_eq_false, not_true, decide_eq_true_eq, true_and,
              false_or, Option.some.injEq]
            constructor
            · intro h c2 hc2
              subst hc2
              by_cases hgt : d.started_at > c
              · simp only [hgt, if_true] at h
                constructor <;> omega
              · simp only [hgt, if_false] at h
                constructor <;> omega
            · intro h
              have h5 := h c rfl
              by_cases hgt : d.started_at > c
              · simp only [hgt, if_true]
                omega
              · simp only [hgt, if_false]
                omega

/-- C2 witness: a record 3 seconds after the reported creation time of a
live pid is identity-valid. -/
theorem C2_identity_validation_witness :
    is_pid_running envLive 0 7 = true ∧
      (((3 : Nat) : Int) - (1 : Nat) ≤ 5 ∧ ((1 : Nat) : Int) - (3 : Nat) ≤ 5) ∧
      is_pid_file_valid envLive 0 ⟨7, "tauri", 3⟩ = true :=
  ⟨rfl, ⟨by decide, by decide⟩,
    (C2_identity_validation envLive 0 ⟨7, "tauri", 3⟩).mpr
      ⟨rfl, Or.inr (fun c hc => by
        simp only [envLive, Option.some.injEq] at hc
        subst hc
        exact ⟨by decide, by decide⟩)⟩⟩

/-- C8 (confirmed): the registry read accepts exactly the structured JSON
shape (when `pid > 0`, with serde defaults `started_by = "tauri"` — the
spec's "self" — and `started_at = 0` for missing fields) and the legacy
bare-integer shape (when positive, treated as
`{pid, started_by = "tauri", started_at = 0}`, so identity verification
is skipped); a pid of 0 or content that parses as neither yields no
record; and the file containing only the text `4821` parses identically
to the structured record `{pid: 4821, started_by: "tauri",
started_at: 0}`. -/
theorem C8_read_pid_file_shapes :
    (∀ pid sb sa, 0 < pid →
        read_pid_file (some (FileContent.jsonRecord pid sb sa)) =
          some ⟨pid, sb.getD default_started_by, sa.getD 0⟩) ∧
    (∀ n, 0 < n →
        read_pid_file (some (FileContent.bareInt n)) = some ⟨n, "tauri", 0⟩) ∧
    (∀ sb sa, read_pid_file (some (FileContent.jsonRecord 0 sb sa)) = none) ∧
    read_pid_file (some (FileContent.bareInt 0)) = none ∧
    read_pid_file (some FileContent.garbage) = none ∧
    read_pid_file none = none ∧
    read_pid_file (some (FileContent.bareInt 4821)) =
      read_pid_file (some (FileContent.jsonRecord 4821 (some "tauri") (some 0))) ∧
    read_pid_file (some (FileContent.bareInt 4821)) = some ⟨4821, "tauri", 0⟩ := by
  refine ⟨?_, ?_, ?_, rfl, rfl, rfl, rfl, rfl⟩
  · intro pid sb sa h
    simp [read_pid_file, h]
  · intro n h
    simp [read_pid_file, h]
  · intro sb sa
    simp [read_pid_file]

/-- C8 witness: the legacy file `4821` at a concrete input. -/
theorem C8_read_pid_file_shapes_witness :
    read_pid_file (some (FileContent.bareInt 4821)) = some ⟨4821, "tauri", 0⟩ :=
  C8_read_pid_file_shapes.2.1 4821 (by decide)

/-- C1 (code bug): two overlapping Start calls for the same workspace can
BOTH spawn a fresh backend process, because `openakita_service_start`
performs its already-running checks BEFORE acquiring the start lock and
never re-checks them after acquiring it.  Under the schedule
`Race.bugSchedule` — thread B passes its managed-handle and registry
checks (finding nothing), is preempted while thread A runs its whole call
(spawning pid 1 and releasing the lock on return), and then resumes and
acquires the now-free lock — both threads return spawn success and two
live processes exist for the workspace, contradicting the claimed mutual
exclusion (the atomic `create_new` closes only the race between two
overlapping lock attempts, not this check-then-act window). -/
theorem C1_concurrent_starts_both_spawn :
    (Race.run Race.init Race.bugSchedule).pcA
        = Race.PC.halted (Race.Outcome.spawnedOk 1) ∧
    (Race.run Race.init Race.bugSchedule).pcB
        = Race.PC.halted (Race.Outcome.spawnedOk 2) ∧
    (Race.run Race.init Race.bugSchedule).spawns = [(true, 1), (false, 2)] ∧
    (Race.run Race.init Race.bugSchedule).aliveSet = [2, 1] := by
  decide

/-- C9 (confirmed): the startup reconciliation pass removes every lock
marker in the run directory and keeps a pid file exactly when it is
unparseable (no record) or its record passes identity validation —
records that fail validation are removed; when the run directory does not
exist it does nothing (and, being total, cannot fail). -/
theorem C9_startup_reconcile (env : Env) (w : World) (t : Nat) :
    (w.runDirExists = false → startup_reconcile env w t = w) ∧
    (w.runDirExists = true →
      (startup_reconcile env w t).locks = [] ∧
      (startup_reconcile env w t).managed = w.managed ∧
      (startup_reconcile env w t).runDirExists = true ∧
      (∀ p : String × FileContent,
        p ∈ (startup_reconcile env w t).pidFiles ↔
          (p ∈ w.pidFiles ∧
            ∀ d, read_pid_file (some p.2) = some d →
              is_pid_file_valid env t d = true))) := by
  constructor
  · intro h
    simp [startup_reconcile, h]
  · intro h
    refine ⟨by simp [startup_reconcile, h], by simp [startup_reconcile, h],
            by simp [startup_reconcile, h], ?_⟩
    intro p
    simp only [startup_reconcile, h, Bool.true_eq_false, not_true, if_false,
      Bool.not_eq_true, ite_false]
    rw [List.mem_filter]
    apply and_congr_right
    intro _
    cases hr : read_pid_file (some p.2) with
    | none => simp [hr]
    | some d => simp [hr]

/-- The reconcile scenario of the spec: a run directory holding one stale
lock and one registry entry whose pid is dead. -/
def wRec : World :=
  { runDirExists := true, locks := ["w1"],
    pidFiles := [("w1", FileContent.bareInt 5)], managed := none }

/-- C9 witness: reconciling `wRec` under the all-dead environment clears
the lock and drops the dead-pid record. -/
theorem C9_startup_reconcile_witness :
    wRec.runDirExists = true ∧
    (startup_reconcile envDead wRec 0).locks = [] ∧
    ("w1", FileContent.bareInt 5) ∉ (startup_reconcile envDead wRec 0).pidFiles := by
  have h := C9_startup_reconcile envDead wRec 0
  refine ⟨rfl, (h.2 rfl).1, ?_⟩
  intro hmem
  have h2 := ((h.2 rfl).2.2.2 ("w1", FileContent.bareInt 5)).mp hmem
  have h3 := h2.2 ⟨5, "tauri", 0⟩ (by decide)
  exact absurd h3 (by decide)

/-- C5 (confirmed): on the registry-record path (no managed handle for
this workspace), Stop fails exactly when the recorded process is observed
still alive at the time the call returns, i.e. after the full escalation
(cooperative shutdown with up to 25 × 200 ms wait when acknowledged, then
forced kill with up to 10 × 200 ms wait); with no record Stop is an
immediate no-op reporting not running; and with a dead recorded process
Stop succeeds immediately, reports not running, and a second Stop in
sequence succeeds as well. -/
theorem C5_stop_error_iff_alive (env : Env) (w : World) (ws : String) (t0 : Nat)
    (hm : w.managed = none) :
    (∀ d, read_pid_file (lookupFile w.pidFiles ws) = some d →
        ((∃ e, (openakita_service_stop env w ws t0).1 = Except.error e) ↔
          is_pid_running env (openakita_service_stop env w ws t0).2.2 d.pid = true)) ∧
    (read_pid_file (lookupFile w.pidFiles ws) = none →
        openakita_service_stop env w ws t0 =
          (Except.ok ⟨false, none⟩,
            { w with pidFiles := eraseFile w.pidFiles ws }, t0)) ∧
    (∀ d, read_pid_file (lookupFile w.pidFiles ws) = some d →
        is_pid_running env t0 d.pid = false →
        (openakita_service_stop env w ws t0).1 = Except.ok ⟨false, none⟩ ∧
        (openakita_service_stop env w ws t0).2.2 = t0 ∧
        ∀ t1, (openakita_service_stop env
                  (openakita_service_stop env w ws t0).2.1 ws t1).1 =
                Except.ok ⟨false, none⟩) := by
  refine ⟨?_, ?_, ?_⟩
  · intro d hd
    have hiff := graceful_stop_fails_iff_alive env d.pid t0
    cases hg : (graceful_stop_pid env d.pid t0).1 with
    | error e =>
        rw [hg] at hiff
        have halive := hiff.mp ⟨e, rfl⟩
        simp only [openakita_service_stop, hm, stopViaFile, hd, hg]
        exact ⟨fun _ => halive, fun _ => ⟨e, rfl⟩⟩
    | ok u =>
        rw [hg] at hiff
        simp only [openakita_service_stop, hm, stopViaFile, hd, hg]
        have hrun : is_pid_running env (graceful_stop_pid env d.pid t0).2 d.pid = false := by
          rcases hb : is_pid_running env (graceful_stop_pid env d.pid t0).2 d.pid with _ | _
          · rfl
          · exact absurd (hiff.mpr hb) (by simp)
        simp [hrun]
  · intro hd
    simp [openakita_service_stop, hm, stopViaFile, hd]
  · intro d hd hdead
    have hg : graceful_stop_pid env d.pid t0 = (Except.ok (), t0) := by
      unfold graceful_stop_pid
      simp [hdead]
    refine ⟨?_, ?_, ?_⟩
    · simp [openakita_service_stop, hm, stopViaFile, hd, hg]
    · simp [openakita_service_stop, hm, stopViaFile, hd, hg]
    · intro t1
      have hw2 : (openakita_service_stop env w ws t0).2.1 =
          { w with pidFiles := eraseFile w.pidFiles ws } := by
        simp [openakita_service_stop, hm, stopViaFile, hd, hg]
      rw [hw2]
      simp [openakita_service_stop, hm, stopViaFile, lookupFile_eraseFile, read_pid_file]

/-- C5 witness: stopping the dead recorded pid of `wRec` is a no-op that
succeeds, and so does the second Stop in sequence. -/
theorem C5_stop_error_iff_alive_witness :
    (openakita_service_stop envDead wRec "w1" 0).1 = Except.ok ⟨false, none⟩ ∧
    (openakita_service_stop envDead
        (openakita_service_stop envDead wRec "w1" 0).2.1 "w1" 7).1 =
      Except.ok ⟨false, none⟩ := by
  have h := (C5_stop_error_iff_alive envDead wRec "w1" 0 rfl).2.2
      ⟨5, "tauri", 0⟩ (by decide) (by decide)
  exact ⟨h.1, h.2.2 7⟩

/-- C6 (confirmed): on the registry-record path of Stop, a failed stop
(process observed alive at the final check) leaves the whole world — in
particular the pid file — untouched, and the pid file ends up removed
exactly when the process was confirmed dead at the time Stop returned. -/
theorem C6_stop_registry_frame (env : Env) (w : World) (ws : String) (t0 : Nat)
    (d : PidFileData) (hm : w.managed = none)
    (hd : read_pid_file (lookupFile w.pidFiles ws) = some d) :
    ((∃ e, (openakita_service_stop env w ws t0).1 = Except.error e) →
      (openakita_service_stop env w ws t0).2.1 = w ∧
      is_pid_running env (openakita_service_stop env w ws t0).2.2 d.pid = true) ∧
    (lookupFile (openakita_service_stop env w ws t0).2.1.pidFiles ws = none ↔
      is_pid_running env (openakita_service_stop env w ws t0).2.2 d.pid = false) := by
  have hlk : ∃ c, lookupFile w.pidFiles ws = some c := by
    cases hc : lookupFile w.pidFiles ws with
    | none => rw [hc] at hd; exact absurd hd (by simp [read_pid_file])
    | some c => exact ⟨c, rfl⟩
  have hiff := graceful_stop_fails_iff_alive env d.pid t0
  cases hg : (graceful_stop_pid env d.pid t0).1 with
  | error e =>
      rw [hg] at hiff
      have halive := hiff.mp ⟨e, rfl⟩
      constructor
      · intro _
        constructor
        · simp [openakita_service_stop, hm, stopViaFile, hd, hg]
        · simp only [openakita_service_stop, hm, stopViaFile, hd, hg]
          exact halive
      · simp only [openakita_service_stop, hm, stopViaFile, hd, hg]
        rcases hlk with ⟨c, hc⟩
        simp [hc, halive]
  | ok u =>
      rw [hg] at hiff
      have hrun : is_pid_running env (graceful_stop_pid env d.pid t0).2 d.pid = false := by
        rcases hb : is_pid_running env (graceful_stop_pid env d.pid t0).2 d.pid with _ | _
        · rfl
        · exact absurd (hiff.mpr hb) (by simp)
      constructor
      · intro he
        rcases he with ⟨e, he⟩
        simp [openakita_service_stop, hm, stopViaFile, hd, hg] at he
      · simp only [openakita_service_stop, hm, stopViaFile, hd, hg]
        simp [lookupFile_eraseFile, hrun]

/-- C6 witness: stopping `wRec`'s recorded pid under the always-alive
environment fails and leaves the record in place. -/
theorem C6_stop_registry_frame_witness :
    (openakita_service_stop envLive wRec "w1" 0).2.1 = wRec ∧
    lookupFile (openakita_service_stop envLive wRec "w1" 0).2.1.pidFiles "w1" ≠ none := by
  have h := C6_stop_registry_frame envLive wRec "w1" 0 ⟨5, "tauri", 0⟩ rfl (by decide)
  have herr : ∃ e, (openakita_service_stop envLive wRec "w1" 0).1 = Except.error e :=
    ⟨StopErr.stillRunning 5, rfl⟩
  refine ⟨(h.1 herr).1, ?_⟩
  rw [(h.1 herr).1]
  decide

/-- The C3 counterexample world: the start lock for `w1` is already held
by another start, and the registry holds a (stale) record for `w1`. -/
def wLocked : World :=
  { runDirExists := true, locks := ["w1"],
    pidFiles := [("w1", FileContent.bareInt 5)], managed := none }

/-- C3 counterexample: a Start that finds the lock already held does NOT
always leave the registry unmodified — here it removes the stale record
(dead pid 5) during its pre-lock checks and only then fails with the
start-race error, so the registry was modified by a call that returned
`startRace`. -/
theorem C3_counterexample :
    (openakita_service_start envDead wLocked "w1" 0).1
        = Except.error StartErr.startRace ∧
    (openakita_service_start envDead wLocked "w1" 0).2.1.pidFiles = [] ∧
    wLocked.pidFiles = [("w1", FileContent.bareInt 5)] :=
  ⟨rfl, rfl, rfl⟩

/-- C3 (amended): every Start whose lock acquisition succeeds releases the
lock on every exit path before returning (the final world never holds the
lock when the call began with it free); and a Start that finds the lock
already held either has already returned `running` from its pre-lock
checks, or fails with the start-race error — in both cases without
spawning, without touching the lock set, and with no registry modification
other than the pre-lock removal of a stale record. -/
theorem C3_lock_release_and_race (env : Env) (w : World) (ws : String) (t0 : Nat) :
    (w.locks.contains ws = false →
      (openakita_service_start env w ws t0).2.1.locks.contains ws = false) ∧
    (w.locks.contains ws = true →
      ((openakita_service_start env w ws t0).1 = Except.error StartErr.startRace ∨
        ∃ p, (openakita_service_start env w ws t0).1 = Except.ok ⟨true, some p⟩) ∧
      (openakita_service_start env w ws t0).2.1.locks = w.locks ∧
      (∀ p, Ev.spawned p ∉ (openakita_service_start env w ws t0).2.2.2) ∧
      ((openakita_service_start env w ws t0).2.1.pidFiles = w.pidFiles ∨
        (openakita_service_start env w ws t0).2.1.pidFiles
          = eraseFile w.pidFiles ws)) := by
  constructor
  · intro hfree
    unfold openakita_service_start
    dsimp only
    rcases hm : startCheckManaged env { w with runDirExists := true } ws t0 with ⟨om, w2⟩
    have hl2 : w2.locks = w.locks := by
      have h := startCheckManaged_locks env { w with runDirExists := true } ws t0
      rw [hm] at h
      exact h
    cases om with
    | some st =>
        dsimp only
        rw [hl2]
        exact hfree
    | none =>
        dsimp only
        rcases hr : startCheckRegistry env w2 ws t0 with ⟨or, w3, evs⟩
        have hl3 : w3.locks = w2.locks := by
          have h := startCheckRegistry_locks env w2 ws t0
          rw [hr] at h
          exact h
        cases or with
        | some st =>
            dsimp only
            rw [hl3, hl2]
            exact hfree
        | none =>
            dsimp only
            have hc3 : w3.locks.contains ws = false := by
              rw [hl3, hl2]; exact hfree
            unfold try_acquire_start_lock
            simp only [hc3, Bool.false_eq_true, if_false, not_true,
              Bool.true_eq_false, ite_false, not_false_iff, if_true]
            split_ifs <;> try exact contains_release_start_lock _ ws
            split
            · exact contains_release_start_lock _ ws
            · split_ifs <;> exact contains_release_start_lock _ ws
  · intro hheld
    unfold openakita_service_start
    dsimp only
    rcases hm : startCheckManaged env { w with runDirExists := true } ws t0 with ⟨om, w2⟩
    have hl2 : w2.locks = w.locks := by
      have h := startCheckManaged_locks env { w with runDirExists := true } ws t0
      rw [hm] at h
      exact h
    have hp2 : w2.pidFiles = w.pidFiles := by
      have h := startCheckManaged_pidFiles env { w with runDirExists := true } ws t0
      rw [hm] at h
      exact h
    cases om with
    | some st =>
        dsimp only
        obtain ⟨p, hst⟩ := startCheckManaged_some env _ ws t0 st w2 hm
        refine ⟨Or.inr ⟨p, by rw [hst]⟩, hl2, ?_, Or.inl hp2⟩
        intro q hq
        simp at hq
    | none =>
        dsimp only
        rcases hr : startCheckRegistry env w2 ws t0 with ⟨or, w3, evs⟩
        have hl3 : w3.locks = w2.locks := by
          have h := startCheckRegistry_locks env w2 ws t0
          rw [hr] at h
          exact h
        have hp3 : w3.pidFiles = w2.pidFiles ∨ w3.pidFiles = eraseFile w2.pidFiles ws := by
          have h := startCheckRegistry_pidFiles env w2 ws t0
          rw [hr] at h
          exact h
        have hevs : evs = [] ∨ evs = [Ev.removedStale] := by
          have h := startCheckRegistry_evs env w2 ws t0
          rw [hr] at h
          exact h
        cases or with
        | some st =>
            dsimp only
            obtain ⟨p, hst⟩ := startCheckRegistry_some env _ ws t0 st w3 evs hr
            refine ⟨Or.inr ⟨p, by rw [hst]⟩, by rw [hl3, hl2], ?_, ?_⟩
            · intro q hq
              rcases hevs with h | h <;> rw [h] at hq <;> simp at hq
            · rw [hp2] at hp3
              exact hp3
        | none =>
            dsimp only
            have hc3 : w3.locks.contains ws = true := by
              rw [hl3, hl2]; exact hheld
            unfold try_acquire_start_lock
            simp only [hc3, if_true, not_false_iff, Bool.false_eq_true,
              not_true, Bool.true_eq_false, ite_true]
            refine ⟨Or.inl (by trivial), by rw [hl3, hl2], ?_, ?_⟩
            · intro q hq
              rcases hevs with h | h <;> rw [h] at hq <;> simp at hq
            · rw [hp2] at hp3
              exact hp3

/-- An empty world: no run directory contents, nothing running. -/
def wEmpty : World :=
  { runDirExists := false, locks := [], pidFiles := [], managed := none }

/-- C3 witness: starting in the empty world leaves the lock free when the
call returns. -/
theorem C3_lock_release_and_race_witness :
    (openakita_service_start envDead wEmpty "w1" 0).2.1.locks.contains "w1" = false :=
  (C3_lock_release_and_race envDead wEmpty "w1" 0).1 (by decide)

/-- C4 (confirmed): a Start that finds a live managed handle, or an
identity-valid registry record, returns `running` with that pid without
spawning (empty event trace, registry untouched); with a record that
fails identity validation, the record is removed BEFORE the lock is
acquired (the removal event heads the trace) and the call proceeds to the
lock acquisition (it either acquires the lock or fails with the start-race
error). -/
theorem C4_start_running_short_circuit (env : Env) (w : World) (ws : String) (t0 : Nat) :
    (∀ mp, w.managed = some mp → mp.workspace_id = ws →
        is_pid_running env t0 mp.pid = true →
        (openakita_service_start env w ws t0).1 = Except.ok ⟨true, some mp.pid⟩ ∧
        (openakita_service_start env w ws t0).2.2.2 = [] ∧
        (openakita_service_start env w ws t0).2.1.pidFiles = w.pidFiles ∧
        (openakita_service_start env w ws t0).2.1.managed = w.managed) ∧
    (∀ d, w.managed = none →
        read_pid_file (lookupFile w.pidFiles ws) = some d →
        is_pid_file_valid env t0 d = true →
        (openakita_service_start env w ws t0).1 = Except.ok ⟨true, some d.pid⟩ ∧
        (openakita_service_start env w ws t0).2.2.2 = [] ∧
        (openakita_service_start env w ws t0).2.1.pidFiles = w.pidFiles) ∧
    (∀ d, w.managed = none →
        read_pid_file (lookupFile w.pidFiles ws) = some d →
        is_pid_file_valid env t0 d = false →
        ∃ rest,
          (openakita_service_start env w ws t0).2.2.2 = Ev.removedStale :: rest ∧
          (((openakita_service_start env w ws t0).1 = Except.error StartErr.startRace ∧
              rest = []) ∨
            rest.head? = some Ev.lockAcq)) := by
  refine ⟨?_, ?_, ?_⟩
  · intro mp hm hws hrun
    refine ⟨?_, ?_, ?_, ?_⟩ <;>
      simp [openakita_service_start, startCheckManaged, hm, hws, hrun]
  · intro d hm hd hv
    refine ⟨?_, ?_, ?_⟩ <;>
      simp [openakita_service_start, startCheckManaged, startCheckRegistry, hm, hd, hv]
  · intro d hm hd hv
    by_cases hc : w.locks.contains ws = true
    · have hmem : ws ∈ w.locks := by simpa using hc
      refine ⟨[], ?_, Or.inl ⟨?_, rfl⟩⟩ <;>
        simp [openakita_service_start, startCheckManaged, startCheckRegistry,
          try_acquire_start_lock, hm, hd, hv, hmem]
    · have hc2 : w.locks.contains ws = false := by
        cases h : w.locks.contains ws
        · rfl
        · exact absurd h hc
      simp only [openakita_service_start, startCheckManaged, startCheckRegistry,
        try_acquire_start_lock, hm, hd, hv, hc2, Bool.false_eq_true, if_false,
        ite_false, not_false_iff, if_true, not_true, Bool.true_eq_false]
      split_ifs <;> try exact ⟨_, rfl, Or.inr rfl⟩
      split
      · exact ⟨_, rfl, Or.inr rfl⟩
      · split_ifs <;> exact ⟨_, rfl, Or.inr rfl⟩

/-- C4 witness: a valid registry record short-circuits Start to `running`
without spawning. -/
theorem C4_start_running_short_circuit_witness :
    (openakita_service_start envLive wRec "w1" 0).1 = Except.ok ⟨true, some 5⟩ ∧
    (openakita_service_start envLive wRec "w1" 0).2.2.2 = [] :=
  ⟨((C4_start_running_short_circuit envLive wRec "w1" 0).2.1 ⟨5, "tauri", 0⟩
      rfl (by decide) (by decide)).1,
   ((C4_start_running_short_circuit envLive wRec "w1" 0).2.1 ⟨5, "tauri", 0⟩
      rfl (by decide) (by decide)).2.1⟩

/-- C7 (confirmed): when the freshly spawned process is found dead at the
500 ms grace re-check, Start clears the managed handle, removes the
registry record it had just written, and fails with the immediate-exit
error carrying a log tail of at most 6000 bytes; a subsequent status query
on the resulting world reports not running. -/
theorem C7_immediate_exit (env : Env) (w : World) (ws : String) (t0 pid : Nat)
    (hm : w.managed = none)
    (hd : lookupFile w.pidFiles ws = none)
    (hfree : w.locks.contains ws = false)
    (hs : env.scaffoldOk = true) (hv : env.venvOk = true)
    (hld : env.logDirOk = true) (hlo : env.logOpenOk = true)
    (hsp : env.spawnPid = some pid)
    (hdead : is_pid_running env (t0 + 500) pid = false) :
    (openakita_service_start env w ws t0).1 =
        Except.error (StartErr.immediateExit pid (logTail env.logBytes)) ∧
    (logTail env.logBytes).length ≤ 6000 ∧
    (openakita_service_start env w ws t0).2.1.managed = none ∧
    lookupFile (openakita_service_start env w ws t0).2.1.pidFiles ws = none ∧
    ∀ t, (openakita_service_status env
            (openakita_service_start env w ws t0).2.1 ws t).1 = ⟨false, none⟩ := by
  have hw : openakita_service_start env w ws t0 =
      (Except.error (StartErr.immediateExit pid (logTail env.logBytes)),
       { runDirExists := true,
         locks := release_start_lock (ws :: w.locks) ws,
         pidFiles := eraseFile (write_pid_file w.pidFiles ws pid "tauri" env.nowEpoch) ws,
         managed := none },
       t0 + 500,
       [Ev.lockAcq, Ev.spawned pid, Ev.lockRel]) := by
    have hnmem : ws ∉ w.locks := by simpa using hfree
    simp [openakita_service_start, startCheckManaged, startCheckRegistry, hm, hd,
      read_pid_file, try_acquire_start_lock, hnmem, hs, hv, hld, hlo, hsp, hdead]
  rw [hw]
  refine ⟨rfl, logTail_length_le _, rfl, lookupFile_eraseFile _ _, ?_⟩
  intro t
  simp [openakita_service_status, openakita_service_status.statusViaFile,
    lookupFile_eraseFile, read_pid_file]

/-- Environment for the immediate-exit scenario: the spawn succeeds with
pid 3 but the process is never observed alive afterwards. -/
def envSpawn : Env := { envDead with spawnPid := some 3, logBytes := [104, 105] }

/-- C7 witness: a spawn that dies inside the grace window fails with
`immediateExit` and status then reports not running. -/
theorem C7_immediate_exit_witness :
    (openakita_service_start envSpawn wEmpty "w1" 0).1 =
      Except.error (StartErr.immediateExit 3 (logTail envSpawn.logBytes)) ∧
    (openakita_service_status envSpawn
        (openakita_service_start envSpawn wEmpty "w1" 0).2.1 "w1" 9).1 = ⟨false, none⟩ := by
  have h := C7_immediate_exit envSpawn wEmpty "w1" 0 3 rfl rfl (by decide)
    rfl rfl rfl rfl rfl rfl
  exact ⟨h.1, h.2.2.2.2 9⟩

theorem stopAllLoop_acc_sub (env : Env) :
    ∀ (entries : List ServicePidEntry) (w : World) (t : Nat) (acc : List Nat)
      (p : Nat), p ∈ acc → p ∈ (stopAllLoop env entries w t acc).2.2 := by
  intro entries
  induction entries with
  | nil => intro w t acc p hp; simpa [stopAllLoop] using hp
  | cons e rest ih =>
      intro w t acc p hp
      rw [stopAllLoop]
      by_cases hr : is_pid_running env t e.pid = true
      · rw [if_pos hr]
        exact ih _ _ _ p (List.mem_append_left _ hp)
      · rw [if_neg hr]
        exact ih _ _ _ p hp

theorem mergeOrphans_sub :
    ∀ (l s : List Nat) (p : Nat), p ∈ s → p ∈ mergeOrphans s l := by
  intro l
  induction l with
  | nil => intro s p hp; simpa [mergeOrphans] using hp
  | cons q rest ih =>
      intro s p hp
      rw [mergeOrphans]
      by_cases hq : s.contains q = true
      · rw [if_pos hq]
        exact ih _ p hp
      · rw [if_neg hq]
        exact ih _ p (List.mem_append_left _ hp)

/-- Registry entry for a live externally-started backend whose command
line matches the orphan-scan signature. -/
def wExt : World :=
  { runDirExists := true, locks := [],
    pidFiles := [("w1", FileContent.jsonRecord 9 (some "external") (some 0))],
    managed := none }

/-- Environment for the C10 scenario: pid 9 is alive forever (it ignores
`kill -TERM`), the cooperative shutdown is never acknowledged, and the
orphan scan matches pid 9. -/
def envC10 : Env := { envLive with orphanPids := [9] }

/-- C10 counterexample: the externally-started process pid 9 — whose
registry entry says `started_by = "external"` — IS targeted for
termination by the supervisor's automatic shutdown paths: the tray quit
sequence kills it through the orphan scan of step 3 (which never consults
the registry), and the stop-all operation stops it in its registry layer
(which applies no `started_by` filter) and reports it in the returned pid
list. -/
theorem C10_counterexample :
    ("w1", FileContent.jsonRecord 9 (some "external") (some 0)) ∈ wExt.pidFiles ∧
    read_pid_file (lookupFile wExt.pidFiles "w1") = some ⟨9, "external", 0⟩ ∧
    9 ∈ (tray_quit envC10 wExt 0).orphansKilled ∧
    9 ∈ (openakita_stop_all_processes envC10 wExt 0).1 := by
  refine ⟨by decide, by decide, by decide, by decide⟩

/-- C10 (amended): `started_by = "external"` entries are excluded only from
the REGISTRY-ENTRY iteration of the tray quit sequence — every pid that
iteration targets comes from a non-external entry; the orphan scan applies
no such exclusion (it kills every live signature-matching pid, registry
notwithstanding), and the stop-all operation applies no exclusion either
(a live listed entry is stopped and reported regardless of its
`started_by`). -/
theorem C10_external_exclusion_scope :
    (∀ (env : Env) (entries : List ServicePidEntry) (w : World) (t p : Nat),
        p ∈ (trayQuitStep2 env entries w t).2.2 →
        ∃ e, e ∈ entries ∧ e.pid = p ∧ e.started_by ≠ "external") ∧
    (∀ (env : Env) (t pid : Nat), pid ∈ env.orphanPids →
        is_pid_running env t pid = true →
        pid ∈ kill_openakita_orphans env t) ∧
    (∀ (env : Env) (w : World) (t : Nat) (e : ServicePidEntry)
        (rest : List ServicePidEntry),
        list_service_pids w = e :: rest →
        is_pid_running env t e.pid = true →
        e.pid ∈ (openakita_stop_all_processes env w t).1) := by
  refine ⟨?_, ?_, ?_⟩
  · intro env entries
    induction entries with
    | nil =>
        intro w t p hp
        simp [trayQuitStep2] at hp
    | cons e rest ih =>
        intro w t p hp
        rw [trayQuitStep2] at hp
        by_cases hext : (e.started_by == "external") = true
        · rw [if_pos hext] at hp
          obtain ⟨e2, he2, hpid, hsb⟩ := ih _ _ p hp
          exact ⟨e2, List.mem_cons_of_mem _ he2, hpid, hsb⟩
        · rw [if_neg hext] at hp
          dsimp only at hp
          rcases List.mem_cons.mp hp with h | h
          · refine ⟨e, List.mem_cons_self e rest, h.symm, ?_⟩
            simpa using hext
          · obtain ⟨e2, he2, hpid, hsb⟩ := ih _ _ p h
            exact ⟨e2, List.mem_cons_of_mem _ he2, hpid, hsb⟩
  · intro env t pid hp hrun
    simp [kill_openakita_orphans, List.mem_filter, hp, hrun]
  · intro env w t e rest hlist hrun
    unfold openakita_stop_all_processes
    rw [hlist]
    dsimp only
    apply mergeOrphans_sub
    rw [stopAllLoop, if_pos hrun]
    exact stopAllLoop_acc_sub env _ _ _ _ _ (by simp)

/-- C10 witness: a live orphan-scan match is killed by the orphan scan. -/
theorem C10_external_exclusion_scope_witness :
    9 ∈ kill_openakita_orphans envC10 5 :=
  C10_external_exclusion_scope.2.1 envC10 5 9 (by decide) (by decide)

end OpenAkita
